import Mathlib

/-!
# A formal model of `run_python.py`

`run_python.py` is a startup shim: it imports `uvicorn`, `os` and `sys` at
top level, and — only when executed directly — appends the current working
directory to `sys.path`, imports `CONFIG` from `python_app.config`, prints a
status line, and calls
`uvicorn.run("python_app.main:app", host=CONFIG.HOST, port=CONFIG.SERVER_PORT, reload=True)`.
An `ImportError` raised inside the guarded `try:` block is caught, and two
diagnostic lines are printed; every other exception propagates unhandled.

We embed the script as a function from a run environment (`World`) to the
list of observable events it performs together with the unhandled exception,
if any, that escapes it.
-/

/-- The configuration object exposed as `CONFIG` by `python_app.config`:
a bind host string and a server port integer. -/
structure Config where
  HOST : String
  SERVER_PORT : Int
deriving DecidableEq

/-- A Python exception as far as the script can distinguish it: an
`ImportError` — with a flag recording whether it is the more specific
`ModuleNotFoundError` subclass — or any other exception, with the text
that `str(e)` yields. -/
inductive PyExc where
  | importError (moduleNotFound : Bool) (msg : String)
  | otherError (msg : String)
deriving DecidableEq

/-- Whether `except ImportError as e:` catches this exception.  Both plain
`ImportError` and its subclass `ModuleNotFoundError` are caught; nothing
else is. -/
def PyExc.caughtByImportError : PyExc → Bool
  | PyExc.importError _ _ => true
  | PyExc.otherError _ => false

/-- The text `str(e)`, which is what `print(e)` writes. -/
def PyExc.message : PyExc → String
  | PyExc.importError _ m => m
  | PyExc.otherError m => m

/-- An externally observable action of the script. -/
inductive Event where
  | importAttempt (mod : String)
  | pathAppend (dir : String)
  | printLine (s : String)
  | uvicornRun (app : String) (host : String) (port : Int) (reload : Bool)
deriving DecidableEq

/-- Whether an event is a call to `uvicorn.run`. -/
def Event.isRun : Event → Bool
  | Event.uvicornRun _ _ _ _ => true
  | _ => false

instance instDecEqExcept {ε α : Type} [DecidableEq ε] [DecidableEq α] :
    DecidableEq (Except ε α) := fun x y =>
  match x, y with
  | Except.error a, Except.error b =>
      if h : a = b then isTrue (by rw [h]) else
        isFalse (fun hc => h (Except.error.inj hc))
  | Except.ok a, Except.ok b =>
      if h : a = b then isTrue (by rw [h]) else
        isFalse (fun hc => h (Except.ok.inj hc))
  | Except.error _, Except.ok _ => isFalse (fun hc => Except.noConfusion hc)
  | Except.ok _, Except.error _ => isFalse (fun hc => Except.noConfusion hc)

/-- One run environment for the script: the current working directory
(`os.getcwd()`), the exception raised by the top-level `import uvicorn`
if it fails, the outcome of `from python_app.config import CONFIG`, and
the exception raised by the call to `uvicorn.run` if it raises one. -/
structure World where
  cwd : String
  uvicornImport : Option PyExc
  configImport : Except PyExc Config
  serverRun : Option PyExc
deriving DecidableEq

/-- The status line `f"Starting Python Server on {CONFIG.HOST}:{CONFIG.SERVER_PORT}"`. -/
def statusLine (cfg : Config) : String :=
  "Starting Python Server on " ++ cfg.HOST ++ ":" ++ toString cfg.SERVER_PORT

/-- The fixed diagnostic message printed by the `except ImportError` handler. -/
def errorLine : String :=
  "Error: Could not import python_app. Make sure you are running this script from the AIClient-2-API directory."

/-- The body of the `try:` block: the events it performs and the exception,
if any, escaping it.  It attempts `from python_app.config import CONFIG`;
on success it prints the status line and calls
`uvicorn.run("python_app.main:app", host=CONFIG.HOST,
port=CONFIG.SERVER_PORT, reload=True)`, which may itself raise. -/
def tryBody (w : World) : List Event × Option PyExc :=
  match w.configImport with
  | Except.error ex => ([Event.importAttempt "python_app.config"], some ex)
  | Except.ok cfg =>
      ([Event.importAttempt "python_app.config",
        Event.printLine (statusLine cfg),
        Event.uvicornRun "python_app.main:app" cfg.HOST cfg.SERVER_PORT true],
       w.serverRun)

/-- Executing `run_python.py` with `__name__` equal to `name`.  The three
top-level imports run first whatever `name` is; if `import uvicorn` raises,
nothing further happens and the exception propagates.  Under the
`if __name__ == "__main__":` guard the script appends the working directory
to `sys.path`, runs the `try:` body, and handles an `ImportError` escaping
it by printing the fixed diagnostic followed by the error text; any other
exception propagates unhandled. -/
def runFile (name : String) (w : World) : List Event × Option PyExc :=
  match w.uvicornImport with
  | some ex => ([Event.importAttempt "uvicorn"], some ex)
  | none =>
      let top := [Event.importAttempt "uvicorn", Event.importAttempt "os",
                  Event.importAttempt "sys"]
      if name = "__main__" then
        let body := tryBody w
        let evs := top ++ Event.pathAppend w.cwd :: body.1
        match body.2 with
        | none => (evs, none)
        | some ex =>
            if ex.caughtByImportError then
              (evs ++ [Event.printLine errorLine, Event.printLine ex.message],
               none)
            else (evs, some ex)
      else (top, none)

/-- The event trace of running the script directly (`python run_python.py`). -/
def mainEvents (w : World) : List Event := (runFile "__main__" w).1

/-- The unhandled exception, if any, escaping the script when it is run
directly. -/
def mainExc (w : World) : Option PyExc := (runFile "__main__" w).2

/-- How an event changes `sys.path`: only `sys.path.append` touches it. -/
def pathAfter (p : List String) : Event → List String
  | Event.pathAppend d => p ++ [d]
  | _ => p

/-- The final value of `sys.path` after running the script directly,
starting from the interpreter's initial path `p0`. -/
def finalSysPath (p0 : List String) (w : World) : List String :=
  (mainEvents w).foldl pathAfter p0

/-- The failure diagnostics were printed: somewhere in the trace the fixed
message appears, immediately followed by a printed error description. -/
def diagnosticsPrinted (w : World) : Prop :=
  ∃ pre m post,
    mainEvents w = pre ++ [Event.printLine errorLine, Event.printLine m] ++ post

theorem statusLine_ne_errorLine (cfg : Config) : statusLine cfg ≠ errorLine := by
  intro h
  have h1 : (statusLine cfg).data.head? = errorLine.data.head? := by rw [h]
  rw [statusLine] at h1
  rw [String.data_append, String.data_append, String.data_append] at h1
  rw [show ("Starting Python Server on ").data
        = 'S' :: ("tarting Python Server on ").data from rfl] at h1
  simp only [List.cons_append, List.head?_cons] at h1
  rw [show errorLine.data.head? = some 'E' from rfl] at h1
  exact absurd (Option.some.inj h1) (by decide)

theorem not_diag_of_no_errorLine (w : World)
    (h : Event.printLine errorLine ∉ mainEvents w) : ¬ diagnosticsPrinted w := by
  rintro ⟨pre, m, post, htr⟩
  exact h (by rw [htr]; simp)

/-- Claim C1: when the script is executed directly and the configuration's
own import succeeds with configuration `cfg`, `uvicorn.run` is invoked exactly
once, with the application path `"python_app.main:app"`, host exactly
`cfg.HOST`, port exactly `cfg.SERVER_PORT`, and the reload flag true. -/
theorem uvicorn_run_called_once_with_config (w : World) (cfg : Config)
    (hu : w.uvicornImport = none) (hc : w.configImport = Except.ok cfg) :
    (mainEvents w).filter Event.isRun
      = [Event.uvicornRun "python_app.main:app" cfg.HOST cfg.SERVER_PORT true] := by
  obtain ⟨cwd, ui, ci, sr⟩ := w
  have hu2 : ui = none := hu
  have hc2 : ci = Except.ok cfg := hc
  subst hu2; subst hc2
  cases sr with
  | none => rfl
  | some ex => cases ex <;> rfl

/-- Witness for C1 at a concrete world. -/
theorem uvicorn_run_called_once_with_config_witness :
    (mainEvents (World.mk "/srv/app" none
        (Except.ok (Config.mk "127.0.0.1" 8000)) none)).filter Event.isRun
      = [Event.uvicornRun "python_app.main:app" "127.0.0.1" 8000 true] :=
  uvicorn_run_called_once_with_config
    (World.mk "/srv/app" none (Except.ok (Config.mk "127.0.0.1" 8000)) none)
    (Config.mk "127.0.0.1" 8000) rfl rfl

/-- Claim C2, counterexample: at this concrete world the configuration's
own import fails (the imported module raises a non-import exception while
executing), yet the two diagnostic lines are NOT printed and the exception
escapes unhandled — refuting the claim that the diagnostics are printed if
and only if the import fails and that an import failure never raises
unhandled. -/
theorem diagnostics_iff_import_failure_cex :
    (World.mk "/srv/app" none
        (Except.error (PyExc.otherError "division by zero")) none).configImport
      = Except.error (PyExc.otherError "division by zero")
    ∧ ¬ diagnosticsPrinted (World.mk "/srv/app" none
        (Except.error (PyExc.otherError "division by zero")) none)
    ∧ mainExc (World.mk "/srv/app" none
        (Except.error (PyExc.otherError "division by zero")) none) ≠ none := by
  refine ⟨rfl, ?_, by decide⟩
  apply not_diag_of_no_errorLine
  rw [show mainEvents (World.mk "/srv/app" none
        (Except.error (PyExc.otherError "division by zero")) none)
      = [Event.importAttempt "uvicorn", Event.importAttempt "os",
         Event.importAttempt "sys", Event.pathAppend "/srv/app",
         Event.importAttempt "python_app.config"] from rfl]
  simp

/-- Claim C2 (amended): the two diagnostic lines are printed if and only if
the body of the `try:` block raises an exception that `except ImportError`
catches — the configuration import fails with an `ImportError`, or, after a
successful import, `uvicorn.run` raises one — and in that case the script
terminates with no unhandled exception. -/
theorem diagnostics_iff_importError_caught (w : World)
    (hu : w.uvicornImport = none) :
    (diagnosticsPrinted w
        ↔ ∃ ex, (tryBody w).2 = some ex ∧ ex.caughtByImportError = true)
    ∧ (∀ ex, (tryBody w).2 = some ex → ex.caughtByImportError = true →
        mainExc w = none) := by
  obtain ⟨cwd, ui, ci, sr⟩ := w
  have hu2 : ui = none := hu
  subst hu2
  cases ci with
  | error e =>
    cases e with
    | importError b m =>
      refine ⟨iff_of_true ?_ ⟨PyExc.importError b m, rfl, rfl⟩, fun _ _ _ => rfl⟩
      exact ⟨[Event.importAttempt "uvicorn", Event.importAttempt "os",
              Event.importAttempt "sys", Event.pathAppend cwd,
              Event.importAttempt "python_app.config"], m, [], rfl⟩
    | otherError m =>
      have hni : ∀ ex : PyExc,
          (some (PyExc.otherError m) : Option PyExc) = some ex →
          ex.caughtByImportError = true → False := by
        intro ex hex hcaught
        rw [← Option.some.inj hex] at hcaught
        exact Bool.noConfusion hcaught
      refine ⟨iff_of_false ?_ ?_, fun ex hex hcaught => (hni ex hex hcaught).elim⟩
      · apply not_diag_of_no_errorLine
        rw [show mainEvents (World.mk cwd none
              (Except.error (PyExc.otherError m)) sr)
            = [Event.importAttempt "uvicorn", Event.importAttempt "os",
               Event.importAttempt "sys", Event.pathAppend cwd,
               Event.importAttempt "python_app.config"] from rfl]
        simp
      · rintro ⟨ex, hex, hcaught⟩
        exact hni ex hex hcaught
  | ok cfg =>
    cases sr with
    | none =>
      refine ⟨iff_of_false ?_ ?_, ?_⟩
      · apply not_diag_of_no_errorLine
        rw [show mainEvents (World.mk cwd none (Except.ok cfg) none)
            = [Event.importAttempt "uvicorn", Event.importAttempt "os",
               Event.importAttempt "sys", Event.pathAppend cwd,
               Event.importAttempt "python_app.config",
               Event.printLine (statusLine cfg),
               Event.uvicornRun "python_app.main:app" cfg.HOST
                 cfg.SERVER_PORT true] from rfl]
        simp [Ne.symm (statusLine_ne_errorLine cfg)]
      · rintro ⟨ex, hex, _⟩
        exact Option.noConfusion (show (none : Option PyExc) = some ex from hex)
      · intro ex hex _
        exact Option.noConfusion (show (none : Option PyExc) = some ex from hex)
    | some e2 =>
      cases e2 with
      | importError b m =>
        refine ⟨iff_of_true ?_ ⟨PyExc.importError b m, rfl, rfl⟩, fun _ _ _ => rfl⟩
        exact ⟨[Event.importAttempt "uvicorn", Event.importAttempt "os",
                Event.importAttempt "sys", Event.pathAppend cwd,
                Event.importAttempt "python_app.config",
                Event.printLine (statusLine cfg),
                Event.uvicornRun "python_app.main:app" cfg.HOST
                  cfg.SERVER_PORT true], m, [], rfl⟩
      | otherError m =>
        have hni : ∀ ex : PyExc,
            (some (PyExc.otherError m) : Option PyExc) = some ex →
            ex.caughtByImportError = true → False := by
          intro ex hex hcaught
          rw [← Option.some.inj hex] at hcaught
          exact Bool.noConfusion hcaught
        refine ⟨iff_of_false ?_ ?_, fun ex hex hcaught => (hni ex hex hcaught).elim⟩
        · apply not_diag_of_no_errorLine
          rw [show mainEvents (World.mk cwd none (Except.ok cfg)
                (some (PyExc.otherError m)))
              = [Event.importAttempt "uvicorn", Event.importAttempt "os",
                 Event.importAttempt "sys", Event.pathAppend cwd,
                 Event.importAttempt "python_app.config",
                 Event.printLine (statusLine cfg),
                 Event.uvicornRun "python_app.main:app" cfg.HOST
                   cfg.SERVER_PORT true] from rfl]
          simp [Ne.symm (statusLine_ne_errorLine cfg)]
        · rintro ⟨ex, hex, hcaught⟩
          exact hni ex hex hcaught

/-- Witness for the amended C2 at a concrete world whose configuration's
own import fails with a `ModuleNotFoundError`. -/
theorem diagnostics_iff_importError_caught_witness :
    (diagnosticsPrinted (World.mk "/srv/app" none
        (Except.error (PyExc.importError true "No module named python_app")) none)
      ↔ ∃ ex, (tryBody (World.mk "/srv/app" none
          (Except.error (PyExc.importError true "No module named python_app"))
          none)).2 = some ex ∧ ex.caughtByImportError = true)
    ∧ (∀ ex, (tryBody (World.mk "/srv/app" none
          (Except.error (PyExc.importError true "No module named python_app"))
          none)).2 = some ex → ex.caughtByImportError = true →
        mainExc (World.mk "/srv/app" none
          (Except.error (PyExc.importError true "No module named python_app"))
          none) = none) :=
  diagnostics_iff_importError_caught
    (World.mk "/srv/app" none
      (Except.error (PyExc.importError true "No module named python_app")) none)
    rfl

/-- Claim C3: when the script is executed directly and the configuration's
own import succeeds, the status line holding the configured host and port is
printed strictly before `uvicorn.run` is called: the trace begins with the
top-level imports, the path append, the configuration import, the status
print, and only then the server launch. -/
theorem status_line_printed_before_server_launch (w : World) (cfg : Config)
    (hu : w.uvicornImport = none) (hc : w.configImport = Except.ok cfg) :
    ∃ rest, mainEvents w
      = [Event.importAttempt "uvicorn", Event.importAttempt "os",
         Event.importAttempt "sys", Event.pathAppend w.cwd,
         Event.importAttempt "python_app.config",
         Event.printLine (statusLine cfg),
         Event.uvicornRun "python_app.main:app" cfg.HOST cfg.SERVER_PORT true]
        ++ rest := by
  obtain ⟨cwd, ui, ci, sr⟩ := w
  have hu2 : ui = none := hu
  have hc2 : ci = Except.ok cfg := hc
  subst hu2; subst hc2
  cases sr with
  | none => exact ⟨[], rfl⟩
  | some ex =>
    cases ex with
    | importError b m =>
      exact ⟨[Event.printLine errorLine, Event.printLine m], rfl⟩
    | otherError m => exact ⟨[], rfl⟩

/-- Witness for C3 at a concrete world. -/
theorem status_line_printed_before_server_launch_witness :
    ∃ rest, mainEvents (World.mk "/srv/app" none
        (Except.ok (Config.mk "0.0.0.0" 8080)) none)
      = [Event.importAttempt "uvicorn", Event.importAttempt "os",
         Event.importAttempt "sys", Event.pathAppend "/srv/app",
         Event.importAttempt "python_app.config",
         Event.printLine (statusLine (Config.mk "0.0.0.0" 8080)),
         Event.uvicornRun "python_app.main:app" "0.0.0.0" 8080 true]
        ++ rest :=
  status_line_printed_before_server_launch
    (World.mk "/srv/app" none (Except.ok (Config.mk "0.0.0.0" 8080)) none)
    (Config.mk "0.0.0.0" 8080) rfl rfl

/-- Claim C4: when the script is executed directly (and the top-level
module imports succeed), the working directory is appended to `sys.path` before
the attempt to import the configuration module: in every trace the
`pathAppend` event precedes the `python_app.config` import attempt. -/
theorem cwd_appended_before_config_import (w : World)
    (hu : w.uvicornImport = none) :
    ∃ rest, mainEvents w
      = [Event.importAttempt "uvicorn", Event.importAttempt "os",
         Event.importAttempt "sys", Event.pathAppend w.cwd,
         Event.importAttempt "python_app.config"] ++ rest := by
  obtain ⟨cwd, ui, ci, sr⟩ := w
  have hu2 : ui = none := hu
  subst hu2
  cases ci with
  | error e =>
    cases e with
    | importError b m =>
      exact ⟨[Event.printLine errorLine, Event.printLine m], rfl⟩
    | otherError m => exact ⟨[], rfl⟩
  | ok cfg =>
    cases sr with
    | none =>
      exact ⟨[Event.printLine (statusLine cfg),
        Event.uvicornRun "python_app.main:app" cfg.HOST cfg.SERVER_PORT true],
        rfl⟩
    | some e2 =>
      cases e2 with
      | importError b m =>
        exact ⟨[Event.printLine (statusLine cfg),
          Event.uvicornRun "python_app.main:app" cfg.HOST cfg.SERVER_PORT true,
          Event.printLine errorLine, Event.printLine m], rfl⟩
      | otherError m =>
        exact ⟨[Event.printLine (statusLine cfg),
          Event.uvicornRun "python_app.main:app" cfg.HOST cfg.SERVER_PORT true],
          rfl⟩

/-- Witness for C4 at a concrete world. -/
theorem cwd_appended_before_config_import_witness :
    ∃ rest, mainEvents (World.mk "/srv/app" none
        (Except.error (PyExc.importError true "No module named python_app")) none)
      = [Event.importAttempt "uvicorn", Event.importAttempt "os",
         Event.importAttempt "sys", Event.pathAppend "/srv/app",
         Event.importAttempt "python_app.config"] ++ rest :=
  cwd_appended_before_config_import
    (World.mk "/srv/app" none
      (Except.error (PyExc.importError true "No module named python_app")) none)
    rfl

/-- Claim C5: the bootstrap logic runs only under the
`if __name__ == "__main__":` guard: executed with any other `__name__`
(i.e. imported as a module), the file performs only its top-level imports —
no path append, no configuration import, no print, no server launch, and it
raises nothing. -/
theorem bootstrap_only_when_main (w : World) (n : String)
    (hu : w.uvicornImport = none) (hn : n ≠ "__main__") :
    runFile n w = ([Event.importAttempt "uvicorn", Event.importAttempt "os",
                    Event.importAttempt "sys"], none) := by
  obtain ⟨cwd, ui, ci, sr⟩ := w
  have hu2 : ui = none := hu
  subst hu2
  simp [runFile, hn]

/-- Witness for C5 at a concrete world imported under the name
`"run_python"`. -/
theorem bootstrap_only_when_main_witness :
    runFile "run_python" (World.mk "/srv/app" none
        (Except.ok (Config.mk "0.0.0.0" 8080)) none)
      = ([Event.importAttempt "uvicorn", Event.importAttempt "os",
          Event.importAttempt "sys"], none) :=
  bootstrap_only_when_main
    (World.mk "/srv/app" none (Except.ok (Config.mk "0.0.0.0" 8080)) none)
    "run_python" rfl (by decide)

/-- Claim C6: the single `except ImportError` is the only error recovery:
any exception escaping the `try:` body (raised by the configuration read or
by the server launch) that is not an `ImportError` propagates unhandled out
of the script. -/
theorem non_import_exceptions_propagate (w : World) (ex : PyExc)
    (hu : w.uvicornImport = none)
    (hex : (tryBody w).2 = some ex)
    (hni : ex.caughtByImportError = false) :
    mainExc w = some ex := by
  obtain ⟨cwd, ui, ci, sr⟩ := w
  have hu2 : ui = none := hu
  subst hu2
  cases ci with
  | error e =>
    have h3 : e = ex := Option.some.inj hex
    subst h3
    cases e with
    | importError b m => exact Bool.noConfusion hni
    | otherError m => rfl
  | ok cfg =>
    have h2 : sr = some ex := hex
    subst h2
    cases ex with
    | importError b m => exact Bool.noConfusion hni
    | otherError m => rfl

/-- Witness for C6 at a concrete world whose configuration module raises a
non-import exception while executing. -/
theorem non_import_exceptions_propagate_witness :
    mainExc (World.mk "/srv/app" none
        (Except.error (PyExc.otherError "bad config value")) none)
      = some (PyExc.otherError "bad config value") :=
  non_import_exceptions_propagate
    (World.mk "/srv/app" none
      (Except.error (PyExc.otherError "bad config value")) none)
    (PyExc.otherError "bad config value") rfl rfl rfl

/-- Claim C7: when the script is executed directly and the configuration's
own import fails, `uvicorn.run` is never called: the trace holds no server
launch event at all. -/
theorem no_server_launch_on_import_failure (w : World) (ex : PyExc)
    (hu : w.uvicornImport = none) (hc : w.configImport = Except.error ex) :
    (mainEvents w).filter Event.isRun = [] := by
  obtain ⟨cwd, ui, ci, sr⟩ := w
  have hu2 : ui = none := hu
  have hc2 : ci = Except.error ex := hc
  subst hu2; subst hc2
  cases ex <;> rfl

/-- Witness for C7 at a concrete world. -/
theorem no_server_launch_on_import_failure_witness :
    (mainEvents (World.mk "/srv/app" none
        (Except.error (PyExc.importError true "No module named python_app"))
        none)).filter Event.isRun = [] :=
  no_server_launch_on_import_failure
    (World.mk "/srv/app" none
      (Except.error (PyExc.importError true "No module named python_app")) none)
    (PyExc.importError true "No module named python_app") rfl rfl

/-- Claim C8: a failure of the top-level `import uvicorn` is outside the
diagnostic failure path: the exception propagates unhandled and the two
diagnostic lines are not printed. -/
theorem uvicorn_import_failure_not_diagnosed (w : World) (ex : PyExc)
    (hu : w.uvicornImport = some ex) :
    mainExc w = some ex ∧ ¬ diagnosticsPrinted w := by
  obtain ⟨cwd, ui, ci, sr⟩ := w
  have hu2 : ui = some ex := hu
  subst hu2
  refine ⟨rfl, ?_⟩
  rintro ⟨pre, m, post, htr⟩
  have h1 : ([Event.importAttempt "uvicorn"] : List Event)
      = pre ++ [Event.printLine errorLine, Event.printLine m] ++ post := htr
  have h2 := congrArg List.length h1
  simp [List.length_append] at h2
  omega

/-- Witness for C8 at a concrete world where `uvicorn` is not installed. -/
theorem uvicorn_import_failure_not_diagnosed_witness :
    mainExc (World.mk "/srv/app"
        (some (PyExc.importError true "No module named uvicorn"))
        (Except.ok (Config.mk "0.0.0.0" 8080)) none)
      = some (PyExc.importError true "No module named uvicorn")
    ∧ ¬ diagnosticsPrinted (World.mk "/srv/app"
        (some (PyExc.importError true "No module named uvicorn"))
        (Except.ok (Config.mk "0.0.0.0" 8080)) none) :=
  uvicorn_import_failure_not_diagnosed
    (World.mk "/srv/app"
      (some (PyExc.importError true "No module named uvicorn"))
      (Except.ok (Config.mk "0.0.0.0" 8080)) none)
    (PyExc.importError true "No module named uvicorn") rfl

/-- Claim C9: the handler is triggered by any `ImportError`, not only by a
module-not-found condition: an `ImportError` whose `ModuleNotFoundError`
flag is false (e.g. the name `CONFIG` is absent from a locatable
`python_app.config`) also produces the two diagnostic lines and is
suppressed. -/
theorem non_modulenotfound_importerror_caught (w : World) (m : String)
    (hu : w.uvicornImport = none)
    (hc : w.configImport = Except.error (PyExc.importError false m)) :
    diagnosticsPrinted w ∧ mainExc w = none := by
  obtain ⟨cwd, ui, ci, sr⟩ := w
  have hu2 : ui = none := hu
  have hc2 : ci = Except.error (PyExc.importError false m) := hc
  subst hu2; subst hc2
  exact ⟨⟨[Event.importAttempt "uvicorn", Event.importAttempt "os",
           Event.importAttempt "sys", Event.pathAppend cwd,
           Event.importAttempt "python_app.config"], m, [], rfl⟩, rfl⟩

/-- Witness for C9 at a concrete world where `python_app.config` exists but
exports no `CONFIG`. -/
theorem non_modulenotfound_importerror_caught_witness :
    diagnosticsPrinted (World.mk "/srv/app" none
        (Except.error (PyExc.importError false
          "cannot import name CONFIG from python_app.config")) none)
    ∧ mainExc (World.mk "/srv/app" none
        (Except.error (PyExc.importError false
          "cannot import name CONFIG from python_app.config")) none) = none :=
  non_modulenotfound_importerror_caught
    (World.mk "/srv/app" none
      (Except.error (PyExc.importError false
        "cannot import name CONFIG from python_app.config")) none)
    "cannot import name CONFIG from python_app.config" rfl rfl

/-- Claim C10: the `sys.path` append is unconditional and never rolled
back — whatever the outcome of the configuration import, the final
`sys.path` is the initial one with the working directory appended — and on
the caught failure path the whole trace is exactly the import attempts,
that single append, and the printed lines: no other effect, and in
particular no server launch. -/
theorem sys_path_append_unconditional_persistent (w : World) (p0 : List String)
    (hu : w.uvicornImport = none) :
    finalSysPath p0 w = p0 ++ [w.cwd]
    ∧ ∀ b m, w.configImport = Except.error (PyExc.importError b m) →
        mainEvents w
          = [Event.importAttempt "uvicorn", Event.importAttempt "os",
             Event.importAttempt "sys", Event.pathAppend w.cwd,
             Event.importAttempt "python_app.config",
             Event.printLine errorLine, Event.printLine m] := by
  obtain ⟨cwd, ui, ci, sr⟩ := w
  have hu2 : ui = none := hu
  subst hu2
  constructor
  · cases ci with
    | error e => cases e <;> rfl
    | ok cfg =>
      cases sr with
      | none => rfl
      | some e2 => cases e2 <;> rfl
  · intro b m hcm
    have hc2 : ci = Except.error (PyExc.importError b m) := hcm
    subst hc2
    rfl

/-- Witness for C10 at a concrete world whose configuration import fails
with a `ModuleNotFoundError`. -/
theorem sys_path_append_unconditional_persistent_witness :
    finalSysPath ["/usr/lib/python3"] (World.mk "/srv/app" none
        (Except.error (PyExc.importError true "No module named python_app")) none)
      = ["/usr/lib/python3"] ++ ["/srv/app"]
    ∧ ∀ b m, (World.mk "/srv/app" none
          (Except.error (PyExc.importError true "No module named python_app"))
          none).configImport = Except.error (PyExc.importError b m) →
        mainEvents (World.mk "/srv/app" none
            (Except.error (PyExc.importError true "No module named python_app"))
            none)
          = [Event.importAttempt "uvicorn", Event.importAttempt "os",
             Event.importAttempt "sys", Event.pathAppend "/srv/app",
             Event.importAttempt "python_app.config",
             Event.printLine errorLine, Event.printLine m] :=
  sys_path_append_unconditional_persistent
    (World.mk "/srv/app" none
      (Except.error (PyExc.importError true "No module named python_app")) none)
    ["/usr/lib/python3"] rfl
